import Mathlib

/-
Verification of the winsystray tray application (src/main.go) against its
natural-language specification.

Modelling conventions (shallow embedding):
- Calls into the Windows shell/user32 gateway are recorded as `Effect`s in a
  trace; the results the OS returns are supplied by a `Gateway` record, so a
  theorem quantified over `Gateway` covers every pattern of OS success and
  failure.
- `fmt.Print*`/`log.Print*` output is recorded as `Effect.logLine`.
- The Go channel `commands = make(chan string, 10)` is modelled as
  `Option (List String)`: `none` is the nil (not yet initialised) channel and
  `some buf` a buffered channel holding `buf`.  A `select` with a `default`
  branch on a nil channel always takes the default branch (Go semantics:
  communication on a nil channel never proceeds), and on a full buffer (no
  concurrent receiver) likewise takes the default branch.
- `int32(wParam)` in the WM_COMMAND switch is modelled as `wParam % 2 ^ 32`;
  the compared menu identifiers are the small positives 1 and 2, for which the
  signed reinterpretation coincides with the low 32 bits.
- `os.Exit` / the exit performed by `log.Fatal` is the `Effect.exitProcess`
  effect resp. the `StartupOutcome.fatalExit` outcome.
-/

namespace Winsystray

-- Constants from the const block of main.go (values kept verbatim).
def WM_USER : Nat := 0x0400

def WM_TRAYICON : Nat := WM_USER + 1

def WM_COMMAND : Nat := 0x0111

def WM_MOUSEMOVE : Nat := 0x0200

def WM_LBUTTONDOWN : Nat := 0x0201

def NIM_ADD : Nat := 0x00000000

def NIM_MODIFY : Nat := 0x00000001

def NIM_DELETE : Nat := 0x00000002

def IDM_EXIT : Nat := 0x0001

def IDM_OPEN_UI : Nat := 0x0002

def WM_ENDSESSION : Nat := 0x0016

def WM_DESTROY : Nat := 0x0002

def WM_CLOSE : Nat := 0x0010

def WM_RBUTTONUP : Nat := 0x0205

-- Menu flag constants declared inside showMenu in main.go.
def MF_STRING : Nat := 0x00000000

def MF_SEPARATOR : Nat := 0x00000800

-- One observable side effect of the program: a call into the native gateway,
-- a log line, an enqueue onto the commands channel, or a process exit.
inductive Effect where
  | logLine (s : String)
  | postMessage (hwnd msg wParam lParam : Nat)
  | postQuitMessage (code : Nat)
  | shellNotifyIcon (op : Nat)
  | destroyWindowCall (hwnd : Nat)
  | createPopupMenuCall
  | appendMenuCall (flags id : Nat)
  | getCursorPosCall
  | setForegroundWindowCall
  | trackPopupMenuCall
  | destroyMenuCall
  | enqueue (cmd : String)
  | exitProcess (code : Nat)
  | defWindowProcCall (msg : Nat)
  deriving DecidableEq, Repr

-- Results the OS returns for each gateway call the modelled code makes.
-- Boolean fields are `ret != 0` of the corresponding native call.
structure Gateway where
  shellAddRet : Bool
  shellAddModifyRet : Bool
  shellNotifyModifyRet : Bool
  shellDeleteRet : Bool
  postMessageRet : Bool
  createPopupMenuRet : Nat
  setForegroundRet : Bool
  trackPopupRet : Nat
  defWindowProcRet : Nat
  deriving DecidableEq, Repr

-- Replace only the result of the NIM_DELETE call, leaving the rest of the
-- gateway unchanged (used to state that callers ignore the delete result).
def setDeleteRet (g : Gateway) (b : Bool) : Gateway :=
  Gateway.mk g.shellAddRet g.shellAddModifyRet g.shellNotifyModifyRet b
    g.postMessageRet g.createPopupMenuRet g.setForegroundRet g.trackPopupRet
    g.defWindowProcRet

-- removeTrayIcon (main.go:434): one Shell_NotifyIcon NIM_DELETE call; wraps a
-- zero return as an error.
def removeTrayIcon (g : Gateway) : List Effect × Except String Unit :=
  ([Effect.shellNotifyIcon NIM_DELETE],
    if g.shellDeleteRet then Except.ok () else Except.error "shell_notifyicon failed")

-- addTrayIcon (main.go:323): NIM_ADD, then on success a NIM_MODIFY that
-- clears the hidden state; each zero return is wrapped as an error.
def addTrayIcon (g : Gateway) : List Effect × Except String Unit :=
  if g.shellAddRet then
    if g.shellAddModifyRet then
      ([Effect.shellNotifyIcon NIM_ADD, Effect.shellNotifyIcon NIM_MODIFY], Except.ok ())
    else
      ([Effect.shellNotifyIcon NIM_ADD, Effect.shellNotifyIcon NIM_MODIFY],
        Except.error "shell_notifyicon modify failed")
  else
    ([Effect.shellNotifyIcon NIM_ADD], Except.error "shell_notifyicon failed")

-- showNotification (main.go:516): a single NIM_MODIFY with NIF_INFO; a zero
-- return is wrapped as an error. (UTF16 conversion of the fixed title and
-- message strings cannot fail and is not modelled.)
def showNotification (g : Gateway) : List Effect × Except String Unit :=
  ([Effect.shellNotifyIcon NIM_MODIFY],
    if g.shellNotifyModifyRet then Except.ok () else Except.error "Shell_NotifyIcon failed")

-- Capacity of the commands channel: make(chan string, 10) (main.go:238).
def commandsCapacity : Nat := 10

-- The non-blocking send in wndProc (main.go:302-307):
-- select { case commands <- cmd: default: log drop }.
-- A nil channel or a full buffer takes the default branch.
def chanTrySend (ch : Option (List String)) (cmd : String) :
    Option (List String) × List Effect :=
  match ch with
  | none => (none, [Effect.logLine "no listener on OpenUI command"])
  | some buf =>
    if buf.length < commandsCapacity then
      (some (buf ++ [cmd]), [Effect.enqueue cmd])
    else
      (some buf, [Effect.logLine "no listener on OpenUI command"])

-- showMenu (main.go:363): create popup menu (give up silently if creation
-- fails), append Open UI / separator / Exit, read cursor position, set
-- foreground window (log on failure), track the popup (log on failure),
-- print the track result, then destroy the menu unconditionally.  The mutex
-- serialising menu display is invisible to the single-threaded trace.
def showMenu (g : Gateway) : List Effect :=
  if g.createPopupMenuRet = 0 then
    [Effect.createPopupMenuCall]
  else
    [Effect.createPopupMenuCall,
      Effect.appendMenuCall MF_STRING IDM_OPEN_UI,
      Effect.appendMenuCall MF_SEPARATOR 0,
      Effect.appendMenuCall MF_STRING IDM_EXIT,
      Effect.getCursorPosCall,
      Effect.setForegroundWindowCall] ++
    (if g.setForegroundRet then [] else [Effect.logLine "SetForegroundWindow failed"]) ++
    [Effect.trackPopupMenuCall] ++
    (if g.trackPopupRet = 0 then [Effect.logLine "TrackPopupMenu failed"] else []) ++
    [Effect.logLine "TrackPopupMenu returned", Effect.destroyMenuCall]

-- wndProc (main.go:276): the window procedure / event router.  Arguments:
-- gateway results, current commands channel, the global hWnd (used by the
-- WM_CLOSE branch, which calls destroyWindow(hWnd) on the global), then the
-- four callback parameters.  Returns (effect trace, new channel, lResult).
def wndProc (g : Gateway) (ch : Option (List String)) (hWndGlobal hwnd msg wParam lParam : Nat) :
    List Effect × Option (List String) × Nat :=
  if msg = WM_DESTROY then
    ([Effect.logLine "WM_DESTROY received", Effect.postQuitMessage 0,
      Effect.logLine "WM_ENDSESSION received"] ++ (removeTrayIcon g).1, ch, 0)
  else if msg = WM_ENDSESSION then
    ([Effect.logLine "WM_ENDSESSION received"] ++ (removeTrayIcon g).1, ch, 0)
  else if msg = WM_TRAYICON then
    (if lParam = WM_MOUSEMOVE ∨ lParam = WM_LBUTTONDOWN then ([], ch, 0)
     else if lParam = WM_RBUTTONUP then
       (Effect.logLine "Right button up received" :: showMenu g, ch, 0)
     else if lParam = 0x404 then ([], ch, 0)
     else ([Effect.logLine ("Unknown mouse event received: " ++ toString lParam)], ch, 0))
  else if msg = WM_COMMAND then
    (if wParam % 2 ^ 32 = IDM_OPEN_UI then
       (Effect.logLine "opened the UI" :: (chanTrySend ch "OpenUI").2,
         (chanTrySend ch "OpenUI").1, 0)
     else if wParam % 2 ^ 32 = IDM_EXIT then
       ([Effect.logLine "Exit clicked", Effect.postMessage hwnd WM_CLOSE 0 0], ch, 0)
     else ([Effect.logLine "Unknown command received"], ch, 0))
  else if msg = WM_CLOSE then
    ([Effect.logLine "WM_CLOSE received", Effect.destroyWindowCall hWndGlobal], ch, 0)
  else
    ([Effect.defWindowProcCall msg], ch, g.defWindowProcRet)

-- One input multiplexed by the coordinator goroutine (main.go:243-271):
-- either a command token from the channel or a termination signal.
inductive CoordInput where
  | command (cmd : String)
  | signal
  deriving DecidableEq, Repr

-- One iteration of the coordinator select loop.  The Bool is true when the
-- iteration ends the loop (the signal branch either calls os.Exit(0) or
-- returns); command tokens leave the loop running.
def coordinatorStep (g : Gateway) (hWndGlobal : Nat) : CoordInput → List Effect × Bool
  | CoordInput.command cmd =>
    (if cmd = "OpenUI" then [Effect.logLine "Command to open UI received"] else [], false)
  | CoordInput.signal =>
    ([Effect.logLine "Signal received",
      Effect.postMessage hWndGlobal WM_CLOSE 0 0] ++
      (if g.postMessageRet then [] else [Effect.logLine "PostMessage to close window failed"]) ++
      (if hWndGlobal = 0 then []
       else (removeTrayIcon g).1 ++
         [Effect.destroyWindowCall hWndGlobal, Effect.exitProcess 0]),
      true)

-- Outcome of the startup path in main: log.Fatal on an error (which exits
-- the process with the diagnostic), otherwise the process reaches running.
inductive StartupOutcome where
  | fatalExit (diag : String)
  | running
  deriving DecidableEq, Repr

-- The icon portion of main (main.go:226-235): addTrayIcon then the test
-- showNotification, each followed by log.Fatal on error.
def mainIconStartup (g : Gateway) : StartupOutcome :=
  match (addTrayIcon g).2 with
  | Except.error e => StartupOutcome.fatalExit e
  | Except.ok _ =>
    match (showNotification g).2 with
    | Except.error e => StartupOutcome.fatalExit e
    | Except.ok _ => StartupOutcome.running

-- Driver: enqueue a list of tokens one after another through the router's
-- non-blocking send, collecting the effects.
def enqueueMany (ch : Option (List String)) : List String → Option (List String) × List Effect
  | [] => (ch, [])
  | cmd :: rest =>
    ((enqueueMany (chanTrySend ch cmd).1 rest).1,
      (chanTrySend ch cmd).2 ++ (enqueueMany (chanTrySend ch cmd).1 rest).2)

-- Driver: the effects of the coordinator consuming a list of command tokens.
def coordinatorDrain (g : Gateway) (hWndGlobal : Nat) (cmds : List String) : List Effect :=
  (cmds.map (fun c => (coordinatorStep g hWndGlobal (CoordInput.command c)).1)).flatten

-- Effect classifiers used by the counting theorems.
def isClosePost : Effect → Bool
  | Effect.postMessage _ m _ _ => m = WM_CLOSE
  | _ => false

def isIconDelete : Effect → Bool
  | Effect.shellNotifyIcon op => op = NIM_DELETE
  | _ => false

def isDestroyWindow : Effect → Bool
  | Effect.destroyWindowCall _ => true
  | _ => false

def isExitProcess : Effect → Bool
  | Effect.exitProcess _ => true
  | _ => false

def isShutdownStep (e : Effect) : Bool :=
  isClosePost e || isIconDelete e || isDestroyWindow e || isExitProcess e

def isCreateMenu : Effect → Bool
  | Effect.createPopupMenuCall => true
  | _ => false

def isDestroyMenu : Effect → Bool
  | Effect.destroyMenuCall => true
  | _ => false

-- A gateway on which every call succeeds.
def gAllOk : Gateway := Gateway.mk true true true true true 1 true 1 0

-- A gateway on which popup-menu creation succeeds but setting the foreground
-- window and tracking the popup both fail.
def gMenuFail : Gateway := Gateway.mk true true true true true 1 false 0 0

-- A gateway on which only the balloon-notification NIM_MODIFY fails.
def gNotifyModifyFail : Gateway := Gateway.mk true true false true true 1 true 1 0

-- A gateway on which NIM_ADD succeeds but the post-add NIM_MODIFY inside
-- addTrayIcon fails.
def gAddModifyFail : Gateway := Gateway.mk true false true true true 1 true 1 0

/-- Claim C1: on a termination signal with a non-zero window handle, the
coordinator performs, in this order, exactly one close post, one tray-icon
removal, one window destruction, and ends the trace with the process exit;
the loop iteration is terminal. -/
theorem coordinator_signal_shutdown_sequence (g : Gateway) (h : Nat) (hh : h ≠ 0) :
    (coordinatorStep g h CoordInput.signal).1.filter isShutdownStep =
      [Effect.postMessage h WM_CLOSE 0 0, Effect.shellNotifyIcon NIM_DELETE,
        Effect.destroyWindowCall h, Effect.exitProcess 0] ∧
    (coordinatorStep g h CoordInput.signal).1.getLast? = some (Effect.exitProcess 0) ∧
    (coordinatorStep g h CoordInput.signal).2 = true := by
  rcases Bool.eq_false_or_eq_true g.postMessageRet with hb | hb <;>
    simp [coordinatorStep, removeTrayIcon, hb, hh, isShutdownStep, isClosePost,
      isIconDelete, isDestroyWindow, isExitProcess, WM_CLOSE, NIM_DELETE]

/-- Witness for C1 at the all-success gateway and handle 5. -/
theorem coordinator_signal_shutdown_sequence_witness :
    (5 : Nat) ≠ 0 ∧
    ((coordinatorStep gAllOk 5 CoordInput.signal).1.filter isShutdownStep =
      [Effect.postMessage 5 WM_CLOSE 0 0, Effect.shellNotifyIcon NIM_DELETE,
        Effect.destroyWindowCall 5, Effect.exitProcess 0] ∧
    (coordinatorStep gAllOk 5 CoordInput.signal).1.getLast? = some (Effect.exitProcess 0) ∧
    (coordinatorStep gAllOk 5 CoordInput.signal).2 = true) :=
  ⟨by decide, coordinator_signal_shutdown_sequence gAllOk 5 (by decide)⟩

/-- Counterexample to claim C2: the source fixes IDM_OPEN_UI = 2 and
IDM_EXIT = 1, so the claimed assignment (open UI = 1, exit = 2) is false. -/
theorem command_ids_as_claimed_false :
    ¬ (IDM_OPEN_UI = 1 ∧ IDM_EXIT = 2 ∧ WM_TRAYICON = WM_USER + 1) := by
  decide

/-- Amended claim C2: the open-UI command sub-identifier is 2, the exit
sub-identifier is 1, and the tray-callback message is the user base plus 1;
the router dispatches on exactly these values. -/
theorem command_ids_values :
    IDM_OPEN_UI = 2 ∧ IDM_EXIT = 1 ∧ WM_TRAYICON = WM_USER + 1 ∧
    (wndProc gAllOk (some []) 1 1 WM_COMMAND IDM_EXIT 0).1 =
      [Effect.logLine "Exit clicked", Effect.postMessage 1 WM_CLOSE 0 0] ∧
    (wndProc gAllOk (some []) 1 1 WM_COMMAND IDM_OPEN_UI 0).2.1 = some ["OpenUI"] :=
  ⟨rfl, rfl, rfl, rfl, rfl⟩

/-- Counterexample to claim C3: when the balloon-notification NIM_MODIFY
fails, the error is returned to main, which calls log.Fatal — the process
terminates, contradicting that such a failure never terminates the process. -/
theorem balloon_modify_failure_terminates :
    (showNotification gNotifyModifyFail).2 = Except.error "Shell_NotifyIcon failed" ∧
    mainIconStartup gNotifyModifyFail = StartupOutcome.fatalExit "Shell_NotifyIcon failed" :=
  ⟨rfl, rfl⟩

/-- Amended claim C3: every failure of a tray-icon modify operation — the
post-add modify inside addTrayIcon as well as the balloon-notification modify
in showNotification — is wrapped with the failing call's name and returned to
the caller; both modify calls sit on the startup path, where main logs the
error fatally, so either modify failure terminates the process. -/
theorem modify_failure_fatal_on_startup (g : Gateway) (ha : g.shellAddRet = true) :
    (g.shellAddModifyRet = false →
      (addTrayIcon g).2 = Except.error "shell_notifyicon modify failed" ∧
      mainIconStartup g = StartupOutcome.fatalExit "shell_notifyicon modify failed") ∧
    (g.shellAddModifyRet = true → g.shellNotifyModifyRet = false →
      (showNotification g).2 = Except.error "Shell_NotifyIcon failed" ∧
      mainIconStartup g = StartupOutcome.fatalExit "Shell_NotifyIcon failed") := by
  constructor
  · intro hm
    constructor
    · simp [addTrayIcon, ha, hm]
    · simp [mainIconStartup, addTrayIcon, ha, hm]
  · intro hm hn
    constructor
    · simp [showNotification, hn]
    · simp [mainIconStartup, addTrayIcon, showNotification, ha, hm, hn]

/-- Witness for the amended C3, instantiating the post-add-modify half at the
gateway where that modify fails and the balloon-modify half at the gateway
where only the balloon modify fails. -/
theorem modify_failure_fatal_on_startup_witness :
    (gAddModifyFail.shellAddRet = true ∧ gAddModifyFail.shellAddModifyRet = false ∧
      gNotifyModifyFail.shellAddRet = true ∧ gNotifyModifyFail.shellAddModifyRet = true ∧
      gNotifyModifyFail.shellNotifyModifyRet = false) ∧
    ((addTrayIcon gAddModifyFail).2 = Except.error "shell_notifyicon modify failed" ∧
      mainIconStartup gAddModifyFail =
        StartupOutcome.fatalExit "shell_notifyicon modify failed") ∧
    ((showNotification gNotifyModifyFail).2 = Except.error "Shell_NotifyIcon failed" ∧
      mainIconStartup gNotifyModifyFail =
        StartupOutcome.fatalExit "Shell_NotifyIcon failed") :=
  ⟨by decide, (modify_failure_fatal_on_startup gAddModifyFail rfl).1 rfl,
    (modify_failure_fatal_on_startup gNotifyModifyFail rfl).2 rfl rfl⟩

/-- Claim C4: whenever CreatePopupMenu succeeds, showMenu creates exactly one
popup menu and destroys exactly one, and the destroy call is the last effect
(after the blocking track call), for every outcome of SetForegroundWindow and
TrackPopupMenu. -/
theorem showMenu_create_destroy_balanced (g : Gateway) (hc : g.createPopupMenuRet ≠ 0) :
    ((showMenu g).filter isCreateMenu).length = 1 ∧
    ((showMenu g).filter isDestroyMenu).length = 1 ∧
    (showMenu g).getLast? = some Effect.destroyMenuCall ∧
    Effect.trackPopupMenuCall ∈ showMenu g := by
  rcases Bool.eq_false_or_eq_true g.setForegroundRet with hf | hf <;>
    rcases Nat.eq_zero_or_pos g.trackPopupRet with ht | ht
  all_goals
    simp [showMenu, hc, hf, ht, Nat.pos_iff_ne_zero.mp, isCreateMenu, isDestroyMenu]

/-- Witness for C4 at a gateway where menu creation succeeds but both
SetForegroundWindow and TrackPopupMenu fail. -/
theorem showMenu_create_destroy_balanced_witness :
    gMenuFail.createPopupMenuRet ≠ 0 ∧
    (((showMenu gMenuFail).filter isCreateMenu).length = 1 ∧
      ((showMenu gMenuFail).filter isDestroyMenu).length = 1 ∧
      (showMenu gMenuFail).getLast? = some Effect.destroyMenuCall ∧
      Effect.trackPopupMenuCall ∈ showMenu gMenuFail) :=
  ⟨by decide, showMenu_create_destroy_balanced gMenuFail (by decide)⟩

/-- Claim C5: the command queue capacity is 10; the router's enqueue is the
non-blocking select-with-default, so pushing 11 open-UI tokens through it
leaves exactly 10 tokens in the queue — all observed by the coordinator —
and produces exactly one logged drop. -/
theorem commands_capacity_and_drop :
    commandsCapacity = 10 ∧
    enqueueMany (some []) (List.replicate 11 "OpenUI") =
      (some (List.replicate 10 "OpenUI"),
        List.replicate 10 (Effect.enqueue "OpenUI") ++
          [Effect.logLine "no listener on OpenUI command"]) ∧
    coordinatorDrain gAllOk 5 (List.replicate 10 "OpenUI") =
      List.replicate 10 (Effect.logLine "Command to open UI received") := by
  refine ⟨rfl, ?_, ?_⟩ <;> rfl

/-- Claim C6: on a destroy notification the router posts the quit message and
then falls through to the session-end case, so its trace is exactly the quit
request followed by everything the session-end case does (the icon removal). -/
theorem destroy_posts_quit_then_falls_through (g : Gateway) (ch : Option (List String))
    (hG hw w l : Nat) :
    (wndProc g ch hG hw WM_DESTROY w l).1 =
      [Effect.logLine "WM_DESTROY received", Effect.postQuitMessage 0] ++
        (wndProc g ch hG hw WM_ENDSESSION w l).1 ∧
    (wndProc g ch hG hw WM_ENDSESSION w l).1 =
      Effect.logLine "WM_ENDSESSION received" :: (removeTrayIcon g).1 := by
  constructor <;> rfl

-- Helper: showMenu never produces a process exit.
theorem showMenu_no_exit (g : Gateway) : (showMenu g).filter isExitProcess = [] := by
  simp only [showMenu]
  split_ifs <;> simp [isExitProcess]

-- Helper: the non-blocking send never produces a process exit.
theorem chanTrySend_no_exit (ch : Option (List String)) (c : String) :
    (chanTrySend ch c).2.filter isExitProcess = [] := by
  cases ch with
  | none => rfl
  | some buf =>
    simp only [chanTrySend]
    split_ifs <;> simp [isExitProcess]

-- Helper: the window procedure never produces a process exit, on any message.
theorem wndProc_no_exit (g : Gateway) (ch : Option (List String)) (hG hw msg w l : Nat) :
    (wndProc g ch hG hw msg w l).1.filter isExitProcess = [] := by
  simp only [wndProc, removeTrayIcon]
  split_ifs <;>
    simp [isExitProcess, showMenu_no_exit, chanTrySend_no_exit]

/-- Claim C7: the router never calls process-exit on any message — its exit
menu command only posts a close request to the window — and the coordinator
loop produces a process exit only in its termination-signal branch, never
when consuming a command token. -/
theorem process_exit_only_in_signal_branch :
    (∀ g : Gateway, ∀ ch : Option (List String), ∀ hG hw msg w l : Nat,
      (wndProc g ch hG hw msg w l).1.filter isExitProcess = []) ∧
    (∀ g : Gateway, ∀ ch : Option (List String), ∀ hG hw l : Nat,
      (wndProc g ch hG hw WM_COMMAND IDM_EXIT l).1 =
        [Effect.logLine "Exit clicked", Effect.postMessage hw WM_CLOSE 0 0]) ∧
    (∀ g : Gateway, ∀ h : Nat, ∀ c : String,
      (coordinatorStep g h (CoordInput.command c)).1.filter isExitProcess = []) := by
  refine ⟨fun g ch hG hw msg w l => wndProc_no_exit g ch hG hw msg w l, ?_, ?_⟩
  · intro g ch hG hw l
    rfl
  · intro g h c
    simp only [coordinatorStep]
    split_ifs <;> simp [isExitProcess]

/-- Counterexample to claim C8: the tray-callback sub-code 0x404 is neither
pointer-move, left-button-down, nor right-button-up, yet the router handles
it with an empty trace — no log line is emitted for it. -/
theorem trayicon_code_404_not_logged :
    ((0x404 : Nat) ≠ WM_MOUSEMOVE ∧ (0x404 : Nat) ≠ WM_LBUTTONDOWN ∧
      (0x404 : Nat) ≠ WM_RBUTTONUP) ∧
    (wndProc gAllOk (some []) 1 1 WM_TRAYICON 0 0x404).1 = [] :=
  ⟨by decide, rfl⟩

/-- Amended claim C8: for every tray-callback sub-code other than
pointer-move, left-button-down, right-button-up, and the silently ignored
0x404, the router logs the unrecognized sub-code and takes no other action
(no other effects, channel unchanged). -/
theorem trayicon_unknown_code_logged (g : Gateway) (ch : Option (List String))
    (hG hw w l : Nat) (h1 : l ≠ WM_MOUSEMOVE) (h2 : l ≠ WM_LBUTTONDOWN)
    (h3 : l ≠ WM_RBUTTONUP) (h4 : l ≠ 0x404) :
    (wndProc g ch hG hw WM_TRAYICON w l).1 =
      [Effect.logLine ("Unknown mouse event received: " ++ toString l)] ∧
    (wndProc g ch hG hw WM_TRAYICON w l).2.1 = ch := by
  constructor <;> simp [wndProc, h1, h2, h3, h4, WM_TRAYICON, WM_DESTROY, WM_ENDSESSION,
    WM_USER]

/-- Witness for the amended C8 at sub-code 0x300. -/
theorem trayicon_unknown_code_logged_witness :
    ((0x300 : Nat) ≠ WM_MOUSEMOVE ∧ (0x300 : Nat) ≠ WM_LBUTTONDOWN ∧
      (0x300 : Nat) ≠ WM_RBUTTONUP ∧ (0x300 : Nat) ≠ 0x404) ∧
    ((wndProc gAllOk (some []) 1 1 WM_TRAYICON 0 0x300).1 =
      [Effect.logLine ("Unknown mouse event received: " ++ toString (0x300 : Nat))] ∧
    (wndProc gAllOk (some []) 1 1 WM_TRAYICON 0 0x300).2.1 = some []) :=
  ⟨by decide, trayicon_unknown_code_logged gAllOk (some []) 1 1 0 0x300
    (by decide) (by decide) (by decide) (by decide)⟩

/-- Claim C9: the result of the tray-icon delete never influences any caller:
both the router (session-end and destroy fall-through) and the coordinator
shutdown path behave identically whether the delete succeeds or reports
failure — the error a failed delete produces inside removeTrayIcon is
discarded, so a delete of an already-absent icon is a no-op to the caller. -/
theorem delete_result_invisible_to_callers (g : Gateway) (b : Bool) (h : Nat)
    (i : CoordInput) (ch : Option (List String)) (hG hw msg w l : Nat) :
    coordinatorStep (setDeleteRet g b) h i = coordinatorStep g h i ∧
    wndProc (setDeleteRet g b) ch hG hw msg w l = wndProc g ch hG hw msg w l ∧
    (removeTrayIcon (setDeleteRet g false)).2 = Except.error "shell_notifyicon failed" ∧
    (removeTrayIcon (setDeleteRet g b)).1 = (removeTrayIcon g).1 := by
  cases g
  cases i <;> refine ⟨rfl, rfl, rfl, rfl⟩

/-- Claim C10: an open-UI command dispatched while the commands channel is
still nil does not block: the select takes its default branch, the drop is
logged, the channel stays nil, and no other effect occurs. -/
theorem openui_on_nil_channel_drops (g : Gateway) (hG hw l : Nat) :
    wndProc g none hG hw WM_COMMAND IDM_OPEN_UI l =
      ([Effect.logLine "opened the UI", Effect.logLine "no listener on OpenUI command"],
        none, 0) := by
  rfl

end Winsystray
